import Mathlib

/-!
Verification development for the `llm-rag-docker` document ingestion pipeline.

The Python sources embedded here are:
* `src/app/components/document_processor.py` (`DocumentProcessor`),
* `src/app/utils/ocr_processor.py` (`OCRProcessor`),
* `src/app/app.py` (`RAGSystemApp.process_documents`).

Machine text is modelled as `String` / `List Char`, raw bytes as `List Nat`
(each byte `< 256`), Python floats as `ℚ`, and Python exceptions as
`Except String`.  Calls into external native libraries (OpenCV, tesseract,
PyMuPDF, python-docx, PIL) are modelled by abstract constructors over an
opaque image type together with an environment record that decides, per
call, whether the call raises and what data-producing calls return.
-/

/-! ### Python string primitives -/

/-- The ASCII whitespace characters removed by Python's `str.strip()`. -/
def pyWhitespaceChars : List Char := [' ', '\t', '\n', '\r', '\x0b', '\x0c']

/-- Whether a character is Python (ASCII) whitespace. -/
def isPyWs (c : Char) : Bool := pyWhitespaceChars.contains c

/-- `str.strip()` on a character list: drop leading and trailing whitespace. -/
def pyStripChars (l : List Char) : List Char :=
  ((l.dropWhile isPyWs).reverse.dropWhile isPyWs).reverse

/-- Python `str.strip()`. -/
def pyStrip (s : String) : String := ⟨pyStripChars s.data⟩

/-- ASCII lowercasing of one character, as Python `str.lower()` does on ASCII. -/
def pyLowerChar (c : Char) : Char :=
  if 'A' ≤ c && c ≤ 'Z' then Char.ofNat (c.toNat + 32) else c

/-- Python `str.lower()` (ASCII fragment; the extensions compared are ASCII). -/
def pyLower (s : String) : String := ⟨s.data.map pyLowerChar⟩

/-- Python `str.split('.')` on a character list: split at every dot, keeping
empty pieces; on the empty string it yields one empty piece. -/
def splitDotChars : List Char → List (List Char)
  | [] => [[]]
  | c :: rest =>
    match splitDotChars rest with
    | h :: t => if c = '.' then [] :: h :: t else (c :: h) :: t
    | [] => if c = '.' then [[], []] else [[c]]

/-- `name.split('.')[-1]`: the last piece of a dot-split.  Python's `split`
never returns an empty list, so the default is unreachable. -/
def lastDotPiece (name : String) : String :=
  ⟨(splitDotChars name.data).getLastD []⟩

/-! ### Python text codecs

`bytes.decode('utf-8')` either yields the decoded string or raises
`UnicodeDecodeError`; `bytes.decode('latin-1')` maps every byte `b` to the
code point `U+00b`, hence is total on bytes. -/

/-- Whether a byte is a UTF-8 continuation byte (`0x80`–`0xBF`). -/
def isCont (b : Nat) : Bool := 128 ≤ b && b < 192

/-- Strict UTF-8 decoding of a byte list to code points, rejecting overlong
forms, surrogates and values above `U+10FFFF`, exactly as Python's strict
`utf-8` codec does; `none` models `UnicodeDecodeError`. -/
def utf8DecodeCps : List Nat → Option (List Nat)
  | [] => some []
  | b :: rest =>
    if b < 128 then
      (utf8DecodeCps rest).map (b :: ·)
    else if b < 194 then
      none
    else if b < 224 then
      match rest with
      | b1 :: rest2 =>
        if isCont b1 then
          (utf8DecodeCps rest2).map (fun cps => ((b - 192) * 64 + (b1 - 128)) :: cps)
        else none
      | [] => none
    else if b < 240 then
      match rest with
      | b1 :: b2 :: rest3 =>
        if isCont b1 && isCont b2
            && !(b == 224 && b1 < 160)      -- overlong 3-byte form
            && !(b == 237 && 160 ≤ b1) then -- surrogate range U+D800–U+DFFF
          (utf8DecodeCps rest3).map
            (fun cps => ((b - 224) * 4096 + (b1 - 128) * 64 + (b2 - 128)) :: cps)
        else none
      | _ => none
    else if b < 245 then
      match rest with
      | b1 :: b2 :: b3 :: rest4 =>
        if isCont b1 && isCont b2 && isCont b3
            && !(b == 240 && b1 < 144)      -- overlong 4-byte form
            && !(b == 244 && 144 ≤ b1) then -- above U+10FFFF
          (utf8DecodeCps rest4).map
            (fun cps => ((b - 240) * 262144 + (b1 - 128) * 4096 + (b2 - 128) * 64
              + (b3 - 128)) :: cps)
        else none
      | _ => none
    else none

/-- `bytes.decode('utf-8')` as an optional string. -/
def utf8Decode (bs : List Nat) : Option String :=
  (utf8DecodeCps bs).map (fun cps => ⟨cps.map Char.ofNat⟩)

/-- `bytes.decode('latin-1')`: each byte becomes the code point of the same
value; total on byte lists. -/
def latin1Decode (bs : List Nat) : String := ⟨bs.map Char.ofNat⟩

/-! ### Chunker

`DocumentProcessor.process_file` delegates chunking to langchain's
`RecursiveCharacterTextSplitter(chunk_size, chunk_overlap, length_function=len,
separators=["\n\n", "\n", " ", ""])` (document_processor.py lines 53–62).
That splitter's implementation lives in the external `langchain` dependency
and is not part of this repository. -/

/-- Modelled from the spec: the chunker (`RecursiveCharacterTextSplitter`,
whose implementation is missing from the repository) per §4.4 and §8 of the
spec: text of length ≤ `S` yields exactly one chunk; longer text yields
windows of `S` characters advancing by `S − O`, so that adjacent chunks share
exactly `O` characters and every chunk has length ≤ `S`.  The spec's
separator-preference heuristic only biases where boundaries fall and is
abstracted away.  `fuel` bounds recursion depth; `chunkChars` supplies
`l.length`, which always suffices. -/
def chunkCharsGo (S O : Nat) : Nat → List Char → List (List Char)
  | 0, l => [l]
  | fuel + 1, l =>
    if S ≤ O || l.length ≤ S then [l]
    else l.take S :: chunkCharsGo S O fuel (l.drop (S - O))

/-- Modelled from the spec: character-level chunking with size `S` and
overlap `O` (see `chunkCharsGo`). -/
def chunkChars (l : List Char) (S O : Nat) : List (List Char) :=
  chunkCharsGo S O l.length l

/-- Modelled from the spec: `split_text` over strings, the form consumed by
`process_file`. -/
def splitText (text : String) (S O : Nat) : List String :=
  (chunkChars text.data S O).map (fun c => ⟨c⟩)

/-- Removing the overlap duplication from a chunk sequence: keep the first
chunk whole and drop the first `O` characters of every later chunk, then
concatenate. -/
def reconstruct (O : Nat) : List (List Char) → List Char
  | [] => []
  | c :: cs => c ++ (cs.map (List.drop O)).flatten

/-! ### DocumentProcessor (src/app/components/document_processor.py)

`process_file` dispatches on the lower-cased last extension piece, extracts
text via the per-format processor, rejects whitespace-only text, chunks, and
wraps each chunk in a `Document` with metadata.  Calls into PIL / PyMuPDF /
python-docx / tesseract are abstracted by `DocEnv`. -/

/-- An uploaded file: its declared name and raw byte content. -/
structure PyFile where
  name : String
  content : List Nat
deriving Repr, DecidableEq

/-- A langchain `Document` as built by `process_file`: the chunk text plus
the metadata map written at document_processor.py lines 67–76. -/
structure Document where
  page_content : String
  filename : String
  file_type : String
  chunk_id : Nat
  total_chunks : Nat
  ocr_enabled : Bool
deriving Repr, DecidableEq

/-- Environment for the external libraries used by `DocumentProcessor`:
which image bytes PIL can open (`imageOpen`, raising on failure), the
outcome of the body of `_ocr_image`'s `try` block on an opened image
(`ocrBody`: numpy conversion + `_preprocess_image` +
`pytesseract.image_to_string`), and the bodies of `_process_pdf` /
`_process_docx`, whose internals (PyMuPDF, python-docx, temp files) are
not exercised by any claim and are kept abstract. -/
structure DocEnv where
  imageOpen : List Nat → Except String Nat
  ocrBody : Nat → Except String String
  pdfExtract : List Nat → Bool → Except String String
  docxExtract : List Nat → Except String String

/-- `DocumentProcessor._process_txt`: decode the bytes as UTF-8; on
`UnicodeDecodeError`, seek back and decode as Latin-1. -/
def processTxt (bs : List Nat) : Except String String :=
  match utf8Decode bs with
  | some s => Except.ok s
  | none => Except.ok (latin1Decode bs)

/-- `DocumentProcessor._ocr_image`: run the `try` block (numpy conversion,
grayscale, `_preprocess_image`, `pytesseract.image_to_string`, `.strip()`);
any exception is caught, logged and turned into the empty string. -/
def ocrImage (env : DocEnv) (img : Nat) : String :=
  match env.ocrBody img with
  | Except.ok text => pyStrip text
  | Except.error _ => ""

/-- `DocumentProcessor._process_image`: with OCR disabled return `""`;
otherwise `Image.open` (which may raise, uncaught here) then `_ocr_image`. -/
def processImage (env : DocEnv) (bs : List Nat) (ocr_enabled : Bool) :
    Except String String :=
  if !ocr_enabled then Except.ok ""
  else (env.imageOpen bs).map (fun img => ocrImage env img)

/-- The keys of `DocumentProcessor.supported_formats`. -/
def supportedFormats : List String := ["pdf", "txt", "docx", "png", "jpg", "jpeg"]

/-- Extension dispatch through `self.supported_formats[file_extension]`. -/
def dispatchExtractor (env : DocEnv) (ext : String) (bs : List Nat)
    (ocr_enabled : Bool) : Except String String :=
  if ext = "pdf" then env.pdfExtract bs ocr_enabled
  else if ext = "txt" then processTxt bs
  else if ext = "docx" then env.docxExtract bs
  else processImage env bs ocr_enabled

/-- Build the `Document` list of document_processor.py lines 64–77. -/
def mkDocuments (name ext : String) (ocr_enabled : Bool)
    (chunks : List String) : List Document :=
  chunks.enum.map (fun p =>
    { page_content := p.2, filename := name, file_type := ext,
      chunk_id := p.1, total_chunks := chunks.length,
      ocr_enabled := ocr_enabled })

/-- `DocumentProcessor.process_file`: resolve the extension, raise
`ValueError` on unsupported formats, extract text, raise on
whitespace-only text, split into chunks and attach metadata.  The
`except` clause at lines 82–84 logs and re-raises, so every error
propagates to the caller. -/
def processFile (env : DocEnv) (f : PyFile) (ocr_enabled : Bool)
    (chunk_size chunk_overlap : Nat) : Except String (List Document) :=
  let ext := pyLower (lastDotPiece f.name)
  if !supportedFormats.contains ext then
    Except.error ("Unsupported file format: " ++ ext)
  else
    match dispatchExtractor env ext f.content ocr_enabled with
    | Except.error e => Except.error e
    | Except.ok text =>
      if pyStrip text = "" then
        Except.error "No text content extracted from file"
      else
        Except.ok (mkDocuments f.name ext ocr_enabled
          (splitText text chunk_size chunk_overlap))

/-- The per-file loop of `RAGSystemApp.process_documents` (app.py lines
360–399): files are processed sequentially inside one `try` block,
accumulating `all_documents`; the first exception escapes the loop to the
function-level `except`, which reports the error — the remaining files are
never processed and no vector store is created.  `Except.ok docs` models the
successful path in which `create_vectorstore` ingests exactly `docs`. -/
def processDocumentsGo (env : DocEnv) (ocr_enabled : Bool)
    (chunk_size chunk_overlap : Nat) (acc : List Document) :
    List PyFile → Except String (List Document)
  | [] => Except.ok acc
  | f :: fs =>
    match processFile env f ocr_enabled chunk_size chunk_overlap with
    | Except.error e => Except.error e
    | Except.ok docs =>
      processDocumentsGo env ocr_enabled chunk_size chunk_overlap
        (acc ++ docs) fs

/-- `RAGSystemApp.process_documents` on a batch of uploaded files. -/
def processDocuments (env : DocEnv) (files : List PyFile) (ocr_enabled : Bool)
    (chunk_size chunk_overlap : Nat) : Except String (List Document) :=
  processDocumentsGo env ocr_enabled chunk_size chunk_overlap [] files

/-! ### OCRProcessor (src/app/utils/ocr_processor.py)

Raster images are an opaque inductive type whose constructors record the
OpenCV operation applied (with the parameters appearing in the source).
`CvEnv` decides which OpenCV calls raise, whether an image is colour
(3-channel), what `cv2.HoughLines` detects and what
`pytesseract.image_to_data` recognizes. -/

/-- Structuring-element kernels appearing in ocr_processor.py. -/
inductive Kern where
  | npOnes : Nat → Kern                         -- np.ones((n,n), np.uint8)
  | ellipse : Nat → Kern                        -- cv2.getStructuringElement(MORPH_ELLIPSE,(n,n))
  | coeffs : List (List Int) → Kern             -- np.array kernels for filter2D
deriving Repr, DecidableEq

/-- Opaque raster images: a source image plus one constructor per OpenCV
operation used in `OCRProcessor`, carrying the source's parameters. -/
inductive PImage where
  | src : Nat → PImage
  | cvtColorGray : PImage → PImage              -- cv2.cvtColor(·, COLOR_BGR2GRAY)
  | rgb2bgr : PImage → PImage                   -- cv2.cvtColor(·, COLOR_RGB2BGR)
  | medianBlur : PImage → Nat → PImage
  | clahe : PImage → ℚ → Nat → PImage           -- createCLAHE(clipLimit, (t,t)).apply
  | otsu : PImage → PImage                      -- threshold(·,0,255,BINARY+OTSU)[1]
  | adaptiveGauss : PImage → Nat → Nat → PImage -- adaptiveThreshold(·,255,GAUSSIAN_C,BINARY,block,c)
  | morphClose : PImage → Kern → PImage
  | bilateral : PImage → Nat → Nat → Nat → PImage
  | resize2xCubic : PImage → PImage             -- resize(·,None,fx=2,fy=2,INTER_CUBIC)
  | nlMeans : PImage → Nat → Nat → Nat → PImage -- fastNlMeansDenoising(·,None,10,7,21)
  | filter2D : PImage → Kern → PImage
  | dilate : PImage → Kern → PImage
  | absdiffInv : PImage → PImage → PImage       -- 255 - cv2.absdiff(img, bg)
  | normalizeMinMax : PImage → PImage
  | canny : PImage → Nat → Nat → Nat → PImage   -- Canny(·,50,150,apertureSize=3)
  | warpAffineRotate : PImage → ℚ → PImage      -- getRotationMatrix2D(center,a,1.0) + warpAffine(·,INTER_CUBIC,BORDER_REPLICATE)
deriving Repr, DecidableEq

/-- A line reported by `cv2.HoughLines`: `rho` and the normal angle, carried
here in degrees (`thetaDeg = theta · 180 / π` for the source's radian
`theta`), so that the source's `angle = theta * 180 / np.pi - 90` becomes
`thetaDeg - 90`. -/
structure HoughLine where
  rho : ℚ
  thetaDeg : ℚ
deriving Repr, DecidableEq

/-- A token row of `pytesseract.image_to_data(..., output_type=DICT)`:
its integer confidence (`int(conf)`) and its text cell. -/
structure OcrToken where
  conf : Int
  text : String
deriving Repr, DecidableEq

/-- Environment for `OCRProcessor`'s external calls.  `fails` maps an
operation name and its primary input image to `some message` when that
OpenCV call raises (modelling dtype/shape errors) and `none` when it
succeeds; `isColor` tells whether `len(image.shape) == 3`; `houghLines`
gives the `cv2.HoughLines` result (`none` models a `None` return);
`imageToData` gives the recognition result for an image under a tesseract
config string and language code. -/
structure CvEnv where
  isColor : PImage → Bool
  fails : String → PImage → Option String
  houghLines : PImage → Except String (Option (List HoughLine))
  imageToData : PImage → String → String → Except String (List OcrToken)

/-- Run one OpenCV call: raise when the environment says so, otherwise
return the constructed result image. -/
def cvCall (env : CvEnv) (op : String) (input result : PImage) :
    Except String PImage :=
  match env.fails op input with
  | some e => Except.error e
  | none => Except.ok result

/-- `np.median` on a rational list: sort, then the middle element, or the
mean of the two middle elements for even length (0 on the empty list, which
`_deskew_image` never passes). -/
def npMedian (l : List ℚ) : ℚ :=
  let s := l.mergeSort (· ≤ ·)
  let n := s.length
  if n % 2 = 1 then s.getD (n / 2) 0
  else (s.getD (n / 2 - 1) 0 + s.getD (n / 2) 0) / 2

/-- `OCRProcessor._deskew_image` (lines 147–174): Canny edges, HoughLines;
if lines were found, keep the angles `theta*180/π - 90` with absolute value
`< 45`; if any survive, rotate by their median via
`getRotationMatrix2D(center, avg_angle, 1.0)` and `warpAffine` with
`INTER_CUBIC` and `BORDER_REPLICATE`; otherwise return the image. -/
def deskewImage (env : CvEnv) (image : PImage) : Except String PImage := do
  let edges ← cvCall env "Canny" image (PImage.canny image 50 150 3)
  let lines? ← env.houghLines edges
  match lines? with
  | none => pure image
  | some lines =>
    let angles := (lines.map (fun l => l.thetaDeg - 90)).filter (fun a => |a| < 45)
    if angles.isEmpty then pure image
    else
      cvCall env "warpAffine" image
        (PImage.warpAffineRotate image (npMedian angles))

/-- `cv2.getRotationMatrix2D(center, a, 1.0)` builds (per the OpenCV
documentation) the matrix `[[cos a, sin a, ·], [-sin a, cos a, ·]]`; as a
linear map of image-frame coordinates this is the rotation by `-a` degrees.
`warpCoordAngle` reads off that coordinate-frame rotation angle from a
warp-affine node. -/
def warpCoordAngle : PImage → Option ℚ
  | PImage.warpAffineRotate _ a => some (-a)
  | _ => none

/-- `OCRProcessor._preprocess_default` (lines 60–72). -/
def preprocessDefault (env : CvEnv) (image : PImage) : Except String PImage := do
  let denoised ← cvCall env "medianBlur" image (PImage.medianBlur image 3)
  let enhanced ← cvCall env "clahe" denoised (PImage.clahe denoised 2 8)
  cvCall env "threshold" enhanced (PImage.otsu enhanced)

/-- `OCRProcessor._preprocess_scanned_document` (lines 74–88). -/
def preprocessScanned (env : CvEnv) (image : PImage) : Except String PImage := do
  let deskewed ← deskewImage env image
  let cleaned ← cvCall env "morphologyEx" deskewed
    (PImage.morphClose deskewed (Kern.npOnes 1))
  let cleaned2 ← cvCall env "medianBlur" cleaned (PImage.medianBlur cleaned 3)
  cvCall env "adaptiveThreshold" cleaned2 (PImage.adaptiveGauss cleaned2 11 2)

/-- `OCRProcessor._remove_shadows` (lines 182–195). -/
def removeShadows (env : CvEnv) (image : PImage) : Except String PImage := do
  let dilated ← cvCall env "dilate" image (PImage.dilate image (Kern.npOnes 7))
  let bg ← cvCall env "medianBlur" dilated (PImage.medianBlur dilated 21)
  let diff ← cvCall env "absdiff" image (PImage.absdiffInv image bg)
  cvCall env "normalize" diff (PImage.normalizeMinMax diff)

/-- The sharpening kernel of `_preprocess_photo_document`. -/
def photoSharpenKern : Kern :=
  Kern.coeffs [[-1, -1, -1], [-1, 9, -1], [-1, -1, -1]]

/-- `OCRProcessor._preprocess_photo_document` (lines 90–109);
`_correct_perspective` is a pass-through (lines 176–180). -/
def preprocessPhoto (env : CvEnv) (image : PImage) : Except String PImage := do
  let corrected := image
  let shadowFree ← removeShadows env corrected
  let enhanced ← cvCall env "clahe" shadowFree (PImage.clahe shadowFree 3 8)
  let sharpened ← cvCall env "filter2D" enhanced
    (PImage.filter2D enhanced photoSharpenKern)
  cvCall env "threshold" sharpened (PImage.otsu sharpened)

/-- The sharpening kernel of `_preprocess_low_quality`. -/
def lowQualitySharpenKern : Kern :=
  Kern.coeffs [[0, -1, 0], [-1, 5, -1], [0, -1, 0]]

/-- `OCRProcessor._preprocess_low_quality` (lines 111–130). -/
def preprocessLowQuality (env : CvEnv) (image : PImage) : Except String PImage := do
  let upscaled ← cvCall env "resize" image (PImage.resize2xCubic image)
  let denoised ← cvCall env "fastNlMeansDenoising" upscaled
    (PImage.nlMeans upscaled 10 7 21)
  let sharpened ← cvCall env "filter2D" denoised
    (PImage.filter2D denoised lowQualitySharpenKern)
  let enhanced ← cvCall env "clahe" sharpened (PImage.clahe sharpened 4 8)
  cvCall env "threshold" enhanced (PImage.otsu enhanced)

/-- `OCRProcessor._preprocess_handwritten` (lines 132–145). -/
def preprocessHandwritten (env : CvEnv) (image : PImage) : Except String PImage := do
  let denoised ← cvCall env "bilateralFilter" image (PImage.bilateral image 9 75 75)
  let morphed ← cvCall env "morphologyEx" denoised
    (PImage.morphClose denoised (Kern.ellipse 2))
  cvCall env "adaptiveThreshold" morphed (PImage.adaptiveGauss morphed 15 10)

/-- The body of `OCRProcessor.preprocess_image`'s `try` block (lines 38–54):
grayscale conversion when the image has 3 channels (`image.copy()` on a
grayscale image leaves the content unchanged and is modelled as the image
itself), then dispatch on `preprocessing_type`. -/
def preprocessImageBody (env : CvEnv) (image : PImage)
    (preprocessing_type : String) : Except String PImage := do
  let gray ←
    if env.isColor image then
      cvCall env "cvtColor" image (PImage.cvtColorGray image)
    else pure image
  if preprocessing_type = "scanned_document" then preprocessScanned env gray
  else if preprocessing_type = "photo_document" then preprocessPhoto env gray
  else if preprocessing_type = "low_quality" then preprocessLowQuality env gray
  else if preprocessing_type = "handwritten" then preprocessHandwritten env gray
  else preprocessDefault env gray

/-- `OCRProcessor.preprocess_image` (lines 35–58): the whole body is inside
`try`; on any exception the error is logged and the original input image is
returned unmodified. -/
def preprocessImage (env : CvEnv) (image : PImage)
    (preprocessing_type : String) : PImage :=
  match preprocessImageBody env image preprocessing_type with
  | Except.ok r => r
  | Except.error _ => image

/-! ### OCRProcessor.extract_text (lines 197–255) -/

/-- The `self.ocr_configs` dictionary (lines 16–23). -/
def ocrConfigs : List (String × String) :=
  [("default", "--oem 3 --psm 6"),
   ("single_column", "--oem 3 --psm 4"),
   ("single_line", "--oem 3 --psm 7"),
   ("single_word", "--oem 3 --psm 8"),
   ("table", "--oem 3 --psm 6"),
   ("sparse", "--oem 3 --psm 11")]

/-- The `self.languages` dictionary (lines 26–33). -/
def ocrLanguages : List (String × String) :=
  [("english", "eng"), ("spanish", "spa"), ("french", "fra"),
   ("german", "deu"), ("chinese", "chi_sim"), ("arabic", "ara")]

/-- Python `dict.get(key, default)` on an association list. -/
def dictGet (d : List (String × String)) (key dflt : String) : String :=
  match d.find? (fun p => p.1 = key) with
  | some p => p.2
  | none => dflt

/-- The token-filtering loop of `extract_text` (lines 227–235), as the
source writes it: scan the rows in order, keep a row when
`int(conf) > confidence_threshold` and its stripped text is non-empty,
appending the stripped text and the integer confidence. -/
def filterTokens (threshold : ℚ) (data : List OcrToken) :
    List String × List Int :=
  data.foldl
    (fun acc tk =>
      if (tk.conf : ℚ) > threshold then
        let t := pyStrip tk.text
        if t ≠ "" then (acc.1 ++ [t], acc.2 ++ [tk.conf]) else acc
      else acc)
    ([], [])

/-- `np.mean` of an integer list as a rational (the value is only used on
non-empty lists). -/
def intMean (l : List Int) : ℚ := ((l.sum : ℚ)) / (l.length : ℚ)

/-- The dictionary returned by `extract_text`: on success the keys of lines
240–247 (`error` absent), on failure the keys of lines 251–255 (only
`text`, `confidence`, `error`). -/
structure OCRResult where
  text : String
  confidence : ℚ
  word_confidences : Option (List Int)
  preprocessing_used : Option String
  config_used : Option String
  language_used : Option String
  error : Option String
deriving Repr, DecidableEq

/-- The `np.array(image)` / `cv2.cvtColor(·, COLOR_RGB2BGR)` prelude of
`extract_text` (lines 206–208). -/
def pilToCv (env : CvEnv) (image : PImage) : Except String PImage :=
  if env.isColor image then
    cvCall env "cvtColorRGB2BGR" image (PImage.rgb2bgr image)
  else Except.ok image

/-- The body of `extract_text`'s `try` block (lines 204–247): convert,
preprocess (`preprocess_image`, which never raises), look up the tesseract
config and language with defaults, run `image_to_data`, filter tokens by
confidence, join with spaces and average the kept confidences. -/
def extractTextBody (env : CvEnv) (image : PImage)
    (config_type language preprocessing : String) (threshold : ℚ) :
    Except String OCRResult := do
  let imgArr ← pilToCv env image
  let processed := preprocessImage env imgArr preprocessing
  let config := dictGet ocrConfigs config_type (dictGet ocrConfigs "default" "")
  let lang := dictGet ocrLanguages language "eng"
  let data ← env.imageToData processed config lang
  let parts := filterTokens threshold data
  let fullText := String.intercalate " " parts.1
  let avgConfidence := if parts.2.isEmpty then 0 else intMean parts.2
  pure { text := fullText, confidence := avgConfidence,
         word_confidences := some parts.2,
         preprocessing_used := some preprocessing,
         config_used := some config_type,
         language_used := some language, error := none }

/-- `OCRProcessor.extract_text`: the `except` clause (lines 249–255) turns
any exception into `{'text': '', 'confidence': 0, 'error': str(e)}`. -/
def extractText (env : CvEnv) (image : PImage)
    (config_type language preprocessing : String) (threshold : ℚ) :
    OCRResult :=
  match extractTextBody env image config_type language preprocessing threshold with
  | Except.ok r => r
  | Except.error e =>
    { text := "", confidence := 0, word_confidences := none,
      preprocessing_used := none, config_used := none,
      language_used := none, error := some e }

/-! ### Import-time execution of src/app/utils/ocr_processor.py

CPython evaluates the annotations of a `def` when the `def` statement
executes; the methods of `OCRProcessor` are defined while the class body
runs at module import, so every name appearing in a parameter or return
annotation must already be bound (module global or builtin) at that point —
the file has no `from __future__ import annotations`. -/

/-- The names bound at module level in ocr_processor.py before the class
body runs: the `import` / `from typing import` names of lines 1–7 and
`logger` of line 9. -/
def ocrModuleGlobals : List String :=
  ["cv2", "np", "pytesseract", "Image", "ImageEnhance", "ImageFilter",
   "logging", "Optional", "Tuple", "Dict", "Any", "io", "logger"]

/-- The Python builtins referred to by the annotations of this module.
`List` is not a builtin (`list` is). -/
def pyBuiltins : List String := ["str", "int", "float", "bool", "list", "dict"]

/-- Whether a name resolves during class-body execution of this module. -/
def ocrNameResolves (n : String) : Bool :=
  ocrModuleGlobals.contains n || pyBuiltins.contains n

/-- Per method of `OCRProcessor`, in source order, the names whose values
the interpreter must look up to evaluate its annotations (the base name of
each dotted annotation, plus subscript arguments). -/
def ocrMethodAnnotationNames : List (String × List String) :=
  [("__init__", []),
   ("preprocess_image", ["np", "str", "np"]),
   ("_preprocess_default", ["np", "np"]),
   ("_preprocess_scanned_document", ["np", "np"]),
   ("_preprocess_photo_document", ["np", "np"]),
   ("_preprocess_low_quality", ["np", "np"]),
   ("_preprocess_handwritten", ["np", "np"]),
   ("_deskew_image", ["np", "np"]),
   ("_correct_perspective", ["np", "np"]),
   ("_remove_shadows", ["np", "np"]),
   ("extract_text", ["Image", "str", "str", "str", "float", "Dict", "str", "Any"]),
   ("detect_language", ["Image", "str"]),
   ("get_text_regions", ["Image", "List", "Dict"])]

/-- Find the first annotation name of a method list that fails to resolve. -/
def firstUnresolvedName : List (String × List String) → Option String
  | [] => none
  | (_, names) :: rest =>
    match names.find? (fun n => !ocrNameResolves n) with
    | some n => some n
    | none => firstUnresolvedName rest

/-- Executing the class body of `OCRProcessor` at import: the first
annotation name that does not resolve raises `NameError`, aborting the
module load; otherwise the module loads. -/
def loadOcrProcessorModule : Except String Unit :=
  match firstUnresolvedName ocrMethodAnnotationNames with
  | some n => Except.error ("NameError: name " ++ n ++ " is not defined")
  | none => Except.ok ()

/-! ### Concrete fixtures used by witnesses and counterexamples -/

/-- UTF-8 bytes of the text `hello world`. -/
def helloBytes : List Nat :=
  [104, 101, 108, 108, 111, 32, 119, 111, 114, 108, 100]

/-- A `DocEnv` in which every external call succeeds and OCR reads nothing. -/
def docEnvOk : DocEnv where
  imageOpen := fun _ => Except.ok 0
  ocrBody := fun _ => Except.ok ""
  pdfExtract := fun _ _ => Except.ok ""
  docxExtract := fun _ => Except.ok ""

/-- A `DocEnv` whose tesseract call raises inside `_ocr_image`. -/
def docEnvOcrFail : DocEnv where
  imageOpen := fun _ => Except.ok 0
  ocrBody := fun _ => Except.error "tesseract crashed"
  pdfExtract := fun _ _ => Except.ok ""
  docxExtract := fun _ => Except.ok ""

/-- A `CvEnv` in which every OpenCV call succeeds, images are grayscale,
HoughLines finds nothing and recognition returns no tokens. -/
def cvEnvOk : CvEnv where
  isColor := fun _ => false
  fails := fun _ _ => none
  houghLines := fun _ => Except.ok none
  imageToData := fun _ _ _ => Except.ok []

/-- A `CvEnv` whose HoughLines call reports two lines, with normal angles
100° and 170° (detected angles 10° and 80°). -/
def cvEnvLines : CvEnv :=
  { cvEnvOk with
    houghLines := fun _ =>
      Except.ok (some [{ rho := 1, thetaDeg := 100 }, { rho := 1, thetaDeg := 170 }]) }

/-- A `CvEnv` whose `cv2.medianBlur` calls raise. -/
def cvEnvBlurFail : CvEnv :=
  { cvEnvOk with
    fails := fun op _ => if op = "medianBlur" then some "cv2.error" else none }

/-- A `CvEnv` whose recognition pass returns three token rows. -/
def cvEnvTokens : CvEnv :=
  { cvEnvOk with
    imageToData := fun _ _ _ =>
      Except.ok [{ conf := 50, text := " hi " }, { conf := 0, text := "zz" },
                 { conf := 80, text := "  " }] }

/-- A `CvEnv` whose recognition pass raises. -/
def cvEnvRecogFail : CvEnv :=
  { cvEnvOk with imageToData := fun _ _ _ => Except.error "tesseract crashed" }

/-! ## Theorems -/

/-! ### Chunker lemmas -/

theorem chunkCharsGo_ne_nil (S O fuel : Nat) (l : List Char) :
    chunkCharsGo S O fuel l ≠ [] := by
  cases fuel with
  | zero => simp [chunkCharsGo]
  | succ f => simp only [chunkCharsGo]; split <;> simp

theorem chunkCharsGo_headD (S O fuel : Nat) (l : List Char)
    (h : l.length ≤ fuel) :
    (chunkCharsGo S O fuel l).headD [] =
      if S ≤ O || l.length ≤ S then l else l.take S := by
  cases fuel with
  | zero =>
    have hl : l = [] := List.eq_nil_of_length_eq_zero (Nat.le_zero.mp h)
    subst hl
    simp [chunkCharsGo]
  | succ f => simp only [chunkCharsGo]; split <;> simp_all

theorem chunkCharsGo_headD_take (S O fuel : Nat) (l : List Char)
    (h : l.length ≤ fuel) (hOS : O ≤ S) :
    ((chunkCharsGo S O fuel l).headD []).take O = l.take O := by
  rw [chunkCharsGo_headD S O fuel l h]
  split
  · rfl
  · rw [List.take_take, Nat.min_eq_left hOS]

theorem chunkCharsGo_reconstruct (S O : Nat) :
    ∀ (fuel : Nat) (l : List Char), l.length ≤ fuel →
      reconstruct O (chunkCharsGo S O fuel l) = l := by
  intro fuel
  induction fuel with
  | zero =>
    intro l _
    simp [chunkCharsGo, reconstruct]
  | succ f ih =>
    intro l h
    simp only [chunkCharsGo]
    split
    · simp [reconstruct]
    · rename_i hguard
      simp only [Bool.or_eq_true, decide_eq_true_eq, not_or, not_le] at hguard
      obtain ⟨hO, hS⟩ := hguard
      have hOS : O ≤ S := le_of_lt hO
      have hstep : 1 ≤ S - O := Nat.le_sub_of_add_le (by omega)
      have hlen : (l.drop (S - O)).length ≤ f := by
        rw [List.length_drop]
        omega
      have hne := chunkCharsGo_ne_nil S O f (l.drop (S - O))
      obtain ⟨c0, rest, hcs⟩ := List.exists_cons_of_ne_nil hne
      have ihl := ih (l.drop (S - O)) hlen
      rw [hcs] at ihl
      simp only [reconstruct] at ihl
      have htk : ((chunkCharsGo S O f (l.drop (S - O))).headD []).take O
          = (l.drop (S - O)).take O :=
        chunkCharsGo_headD_take S O f (l.drop (S - O)) hlen hOS
      rw [hcs] at htk
      simp only [List.headD_cons] at htk
      rw [hcs]
      simp only [reconstruct, List.map_cons, List.flatten_cons]
      have hSsplit : S = (S - O) + O := by omega
      calc l.take S ++ (c0.drop O ++ (rest.map (List.drop O)).flatten)
          = (l.take (S - O) ++ (l.drop (S - O)).take O)
              ++ (c0.drop O ++ (rest.map (List.drop O)).flatten) := by
            rw [← List.take_add l (S - O) O, ← hSsplit]
        _ = l.take (S - O) ++ (c0 ++ (rest.map (List.drop O)).flatten) := by
            rw [← htk]
            simp only [List.append_assoc]
            congr 1
            rw [← List.append_assoc, List.take_append_drop]
        _ = l.take (S - O) ++ l.drop (S - O) := by rw [ihl]
        _ = l := List.take_append_drop ..

/-- Claim C3: for every processed document, concatenating its chunk texts in
order after removing the overlapping duplicated regions (the first `O`
characters of every chunk after the first) reconstructs the originally
extracted text exactly.  Settled against the spec-modelled chunker
`chunkChars` (the implementation is in the external langchain dependency). -/
theorem chunks_roundtrip (S O : Nat) (text : String) :
    reconstruct O (chunkChars text.data S O) = text.data :=
  chunkCharsGo_reconstruct S O text.data.length text.data le_rfl

theorem chunkCharsGo_length_le (S O : Nat) (hSO : O < S) :
    ∀ (fuel : Nat) (l : List Char), l.length ≤ fuel →
      ∀ c ∈ chunkCharsGo S O fuel l, c.length ≤ S := by
  intro fuel
  induction fuel with
  | zero =>
    intro l h c hc
    have hl : l = [] := List.eq_nil_of_length_eq_zero (Nat.le_zero.mp h)
    subst hl
    simp [chunkCharsGo] at hc
    simp [hc]
  | succ f ih =>
    intro l h c hc
    simp only [chunkCharsGo] at hc
    split at hc
    · rename_i hguard
      simp only [Bool.or_eq_true, decide_eq_true_eq] at hguard
      rcases hguard with hg | hg
      · omega
      · simp only [List.mem_singleton] at hc
        subst hc; exact hg
    · rename_i hguard
      simp only [Bool.or_eq_true, decide_eq_true_eq, not_or, not_le] at hguard
      simp only [List.mem_cons] at hc
      rcases hc with hc | hc
      · subst hc
        simp [List.length_take]
      · exact ih (l.drop (S - O)) (by rw [List.length_drop]; omega) c hc

/-- The overlap relation between adjacent chunks: the trailing `O`
characters of the first equal the leading `O` characters of the second, and
that shared block has length exactly `O`. -/
def overlapRel (O : Nat) (c d : List Char) : Prop :=
  c.drop (c.length - O) = d.take O ∧ (d.take O).length = O

theorem chunkCharsGo_chain (S O : Nat) (hSO : O < S) :
    ∀ (fuel : Nat) (l : List Char), l.length ≤ fuel →
      List.Chain' (overlapRel O) (chunkCharsGo S O fuel l) := by
  intro fuel
  induction fuel with
  | zero =>
    intro l _
    simp [chunkCharsGo]
  | succ f ih =>
    intro l h
    simp only [chunkCharsGo]
    split
    · simp
    · rename_i hguard
      simp only [Bool.or_eq_true, decide_eq_true_eq, not_or, not_le] at hguard
      obtain ⟨hO, hS⟩ := hguard
      have hOS : O ≤ S := le_of_lt hO
      have hlen : (l.drop (S - O)).length ≤ f := by
        rw [List.length_drop]; omega
      have hlen2 : O < (l.drop (S - O)).length := by
        rw [List.length_drop]; omega
      rw [List.chain'_cons']
      refine ⟨?_, ih (l.drop (S - O)) hlen⟩
      intro y hy
      have hne := chunkCharsGo_ne_nil S O f (l.drop (S - O))
      have hy' : y = (chunkCharsGo S O f (l.drop (S - O))).headD [] := by
        cases hcs : chunkCharsGo S O f (l.drop (S - O)) with
        | nil => exact absurd hcs hne
        | cons c0 rest => rw [hcs] at hy; simp at hy; simp [hy]
      have hheadD := chunkCharsGo_headD S O f (l.drop (S - O)) hlen
      constructor
      · have hlentake : (l.take S).length = S := by
          rw [List.length_take]; omega
        rw [hlentake, List.drop_take]
        have : S - (S - O) = O := by omega
        rw [this]
        rw [hy', chunkCharsGo_headD_take S O f (l.drop (S - O)) hlen hOS]
      · rw [hy', chunkCharsGo_headD_take S O f (l.drop (S - O)) hlen hOS]
        rw [List.length_take]
        omega

/-- Claim C2: with `O < S` and non-empty text, every chunk the chunker
produces has length ≤ `S` (in this model even the last one), and any two
adjacent chunks overlap in exactly `O` characters: the trailing `O`
characters of the first are the leading `O` characters of the second.
Settled against the spec-modelled chunker `splitText` (the implementation
is in the external langchain dependency). -/
theorem chunk_size_overlap_invariant (S O : Nat) (text : String)
    (hSO : O < S) (hne : text ≠ "") :
    (∀ c ∈ splitText text S O, c.length ≤ S) ∧
    List.Chain' (fun c d : String => overlapRel O c.data d.data)
      (splitText text S O) := by
  constructor
  · intro c hc
    simp only [splitText, List.mem_map] at hc
    obtain ⟨chunk, hchunk, rfl⟩ := hc
    exact chunkCharsGo_length_le S O hSO text.data.length text.data le_rfl
      chunk hchunk
  · rw [splitText, List.chain'_map]
    exact chunkCharsGo_chain S O hSO text.data.length text.data le_rfl

/-- Witness for C2 at `S = 5`, `O = 2`, text `abcdefgh`
(chunks `abcde`, `defgh`; shared block `de`). -/
theorem chunk_size_overlap_invariant_witness :
    (2 < 5 ∧ ("abcdefgh" : String) ≠ "") ∧
    ((∀ c ∈ splitText "abcdefgh" 5 2, c.length ≤ 5) ∧
      List.Chain' (fun c d : String => overlapRel 2 c.data d.data)
        (splitText "abcdefgh" 5 2)) :=
  ⟨⟨by decide, by decide⟩,
    chunk_size_overlap_invariant 5 2 "abcdefgh" (by decide) (by decide)⟩

/-! ### Plain-text extraction (C8) -/

/-- Claim C8: `_process_txt` never raises.  The bytes are decoded as UTF-8
when they form valid UTF-8; on a decode failure the extractor falls back to
Latin-1, which succeeds on arbitrary bytes (one character per byte), so the
extractor always returns a string. -/
theorem process_txt_never_raises (bs : List Nat) :
    (∃ s, processTxt bs = Except.ok s) ∧
    (∀ s, utf8Decode bs = some s → processTxt bs = Except.ok s) ∧
    (utf8Decode bs = none → processTxt bs = Except.ok (latin1Decode bs)) ∧
    (latin1Decode bs).data.length = bs.length := by
  refine ⟨?_, ?_, ?_, by simp [latin1Decode]⟩
  · cases h : utf8Decode bs with
    | some s => exact ⟨s, by simp [processTxt, h]⟩
    | none => exact ⟨latin1Decode bs, by simp [processTxt, h]⟩
  · intro s h
    simp [processTxt, h]
  · intro h
    simp [processTxt, h]

/-- Witness for C8 at the single byte `0xFF`, which is not valid UTF-8 and
decodes under Latin-1 to the one-character string `U+00FF`. -/
theorem process_txt_never_raises_witness :
    utf8Decode [255] = none ∧
    processTxt [255] = Except.ok (latin1Decode [255]) :=
  ⟨by decide, (process_txt_never_raises [255]).2.2.1 (by decide)⟩

/-! ### Import-time NameError in ocr_processor.py (C9) -/

/-- Claim C9: loading `src/app/utils/ocr_processor.py` fails with a
`NameError`: the annotation name `List` in the return annotation of
`get_text_regions` resolves neither to a module global (it is missing from
the line-6 `from typing import ...`) nor to a builtin, so executing the
class body raises and no `OCRProcessor` operation can ever be invoked. -/
theorem ocr_module_load_fails :
    loadOcrProcessorModule
        = Except.error "NameError: name List is not defined" ∧
    ocrNameResolves "List" = false ∧
    ("get_text_regions", ["Image", "List", "Dict"]) ∈ ocrMethodAnnotationNames :=
  ⟨rfl, by decide, by decide⟩

/-! ### Batch processing aborts on a single file error (C1) -/

/-- Counterexample to claim C1: in the batch `[file.xyz, good.txt]` the
unsupported first file raises, `process_documents` catches the exception at
batch level and stops — `good.txt` is never processed and no chunks are
ingested — although `good.txt` on its own would produce a chunk. -/
theorem batch_abort_counterexample :
    processDocuments docEnvOk
        [{ name := "file.xyz", content := [] },
         { name := "good.txt", content := helloBytes }] true 1000 200
      = Except.error "Unsupported file format: xyz" ∧
    processFile docEnvOk { name := "good.txt", content := helloBytes }
        true 1000 200
      = Except.ok [{ page_content := "hello world", filename := "good.txt",
                     file_type := "txt", chunk_id := 0, total_chunks := 1,
                     ocr_enabled := true }] :=
  ⟨rfl, rfl⟩

theorem processDocumentsGo_error (env : DocEnv) (ocr : Bool) (S O : Nat)
    (f : PyFile) (post : List PyFile) (e : String)
    (hf : processFile env f ocr S O = Except.error e) :
    ∀ (pre : List PyFile) (acc : List Document),
      (∀ g ∈ pre, ∃ ds, processFile env g ocr S O = Except.ok ds) →
      processDocumentsGo env ocr S O acc (pre ++ f :: post)
        = Except.error e := by
  intro pre
  induction pre with
  | nil =>
    intro acc _
    simp [processDocumentsGo, hf]
  | cons g pre ih =>
    intro acc hpre
    obtain ⟨ds, hds⟩ := hpre g (by simp)
    simp only [List.cons_append, processDocumentsGo, hds]
    exact ih (acc ++ ds) (fun g' hg' => hpre g' (by simp [hg']))

/-- Claim C1, amended: an error on a single file aborts the whole batch.
When every file before `f` processes successfully and `f` raises `e`
(unsupported extension, no extracted content, or any extractor error),
`process_documents` stops with that error: the files after `f` are never
processed and no chunks at all are handed to the vector store. -/
theorem batch_aborts_on_single_file_error (env : DocEnv) (ocr : Bool)
    (S O : Nat) (pre post : List PyFile) (f : PyFile) (e : String)
    (hpre : ∀ g ∈ pre, ∃ ds, processFile env g ocr S O = Except.ok ds)
    (hf : processFile env f ocr S O = Except.error e) :
    processDocuments env (pre ++ f :: post) ocr S O = Except.error e :=
  processDocumentsGo_error env ocr S O f post e hf pre [] hpre

/-- Witness for the amended C1: the empty prefix trivially succeeds,
`file.xyz` raises the unsupported-format error, and the two-file batch
aborts with that error. -/
theorem batch_aborts_on_single_file_error_witness :
    (∀ g ∈ ([] : List PyFile), ∃ ds,
      processFile docEnvOk g true 1000 200 = Except.ok ds) ∧
    processFile docEnvOk { name := "file.xyz", content := [] } true 1000 200
      = Except.error "Unsupported file format: xyz" ∧
    processDocuments docEnvOk
        ([] ++ { name := "file.xyz", content := [] }
          :: [{ name := "good.txt", content := helloBytes }]) true 1000 200
      = Except.error "Unsupported file format: xyz" :=
  ⟨by simp, rfl,
    batch_aborts_on_single_file_error docEnvOk true 1000 200 []
      [{ name := "good.txt", content := helloBytes }]
      { name := "file.xyz", content := [] }
      "Unsupported file format: xyz" (by simp) rfl⟩

/-! ### OCR failure inside `_ocr_image` surfaces as the no-content error (C10) -/

/-- Claim C10: when processing an image file with OCR enabled and the body
of `_ocr_image` raises, `_ocr_image` catches the exception and returns
`""`, and `process_file` then raises the `No text content extracted from
file` error — the same outcome as for an environment whose OCR succeeds on
a genuinely blank image, so the failure is indistinguishable from blank
input at the pipeline boundary. -/
theorem ocr_failure_masked_as_no_content (env env2 : DocEnv) (f : PyFile)
    (S O : Nat) (img : Nat) (e : String)
    (hext : pyLower (lastDotPiece f.name) = "png"
      ∨ pyLower (lastDotPiece f.name) = "jpg"
      ∨ pyLower (lastDotPiece f.name) = "jpeg")
    (hopen : env.imageOpen f.content = Except.ok img)
    (hfail : env.ocrBody img = Except.error e)
    (hopen2 : env2.imageOpen f.content = Except.ok img)
    (hblank : env2.ocrBody img = Except.ok "") :
    processFile env f true S O
      = Except.error "No text content extracted from file" ∧
    processFile env f true S O = processFile env2 f true S O := by
  have hsup : supportedFormats.contains (pyLower (lastDotPiece f.name)) = true := by
    rcases hext with h | h | h <;> rw [h] <;> decide
  have hdisp : ∀ env' : DocEnv,
      dispatchExtractor env' (pyLower (lastDotPiece f.name)) f.content true
        = processImage env' f.content true := by
    intro env'
    rcases hext with h | h | h <;> rw [h] <;> rfl
  have hps : pyStrip "" = "" := rfl
  have h1 : processFile env f true S O
      = Except.error "No text content extracted from file" := by
    simp only [processFile, hsup, Bool.not_true, Bool.false_eq_true,
      if_false, hdisp, processImage, Bool.not_true, hopen, Except.map,
      ocrImage, hfail, hps, if_true]
  have h2 : processFile env2 f true S O
      = Except.error "No text content extracted from file" := by
    simp only [processFile, hsup, Bool.not_true, Bool.false_eq_true,
      if_false, hdisp, processImage, Bool.not_true, hopen2, Except.map,
      ocrImage, hblank, hps, if_true]
  exact ⟨h1, h1.trans h2.symm⟩

/-- Witness for C10: `scan.png` under a raising tesseract yields the same
no-content error as under a tesseract that reads an empty string. -/
theorem ocr_failure_masked_as_no_content_witness :
    (pyLower (lastDotPiece "scan.png") = "png"
      ∨ pyLower (lastDotPiece "scan.png") = "jpg"
      ∨ pyLower (lastDotPiece "scan.png") = "jpeg") ∧
    docEnvOcrFail.imageOpen [1, 2, 3] = Except.ok 0 ∧
    docEnvOcrFail.ocrBody 0 = Except.error "tesseract crashed" ∧
    docEnvOk.imageOpen [1, 2, 3] = Except.ok 0 ∧
    docEnvOk.ocrBody 0 = Except.ok "" ∧
    (processFile docEnvOcrFail { name := "scan.png", content := [1, 2, 3] }
        true 1000 200
      = Except.error "No text content extracted from file" ∧
    processFile docEnvOcrFail { name := "scan.png", content := [1, 2, 3] }
        true 1000 200
      = processFile docEnvOk { name := "scan.png", content := [1, 2, 3] }
        true 1000 200) :=
  ⟨Or.inl rfl, rfl, rfl, rfl, rfl,
    ocr_failure_masked_as_no_content docEnvOcrFail docEnvOk
      { name := "scan.png", content := [1, 2, 3] } 1000 200 0
      "tesseract crashed" (Or.inl rfl) rfl rfl rfl rfl⟩

/-! ### Deskew angle policy (C4) -/

theorem exceptBind_ok {α β : Type} (a : α) (f : α → Except String β) :
    (Except.ok a >>= f) = f a := rfl

theorem exceptBind_error {α β : Type} (e : String) (f : α → Except String β) :
    ((Except.error e : Except String α) >>= f) = Except.error e := rfl

/-- Claim C4: in `_deskew_image`, a detected angle with `|angle| ≥ 45`
never enters the accepted list; with no lines or no accepted angles the
image is returned unrotated; and with accepted angles the image is warped
with rotation parameter `npMedian angles` and replicated borders, which by
the OpenCV rotation-matrix convention (`warpCoordAngle`) rotates the image
frame by the negative of that median. -/
theorem deskew_angle_policy (env : CvEnv) (image edges : PImage)
    (hcanny : cvCall env "Canny" image (PImage.canny image 50 150 3)
      = Except.ok edges) :
    (env.houghLines edges = Except.ok none →
      deskewImage env image = Except.ok image) ∧
    (∀ lines, env.houghLines edges = Except.ok (some lines) →
      (∀ l ∈ lines, ¬(|l.thetaDeg - 90| < 45) →
        (l.thetaDeg - 90)
          ∉ (lines.map (fun l' => l'.thetaDeg - 90)).filter
              (fun a => |a| < 45)) ∧
      ((lines.map (fun l' => l'.thetaDeg - 90)).filter (fun a => |a| < 45)
          = [] →
        deskewImage env image = Except.ok image) ∧
      (∀ angles,
        (lines.map (fun l' => l'.thetaDeg - 90)).filter (fun a => |a| < 45)
          = angles →
        angles ≠ [] → env.fails "warpAffine" image = none →
        deskewImage env image
          = Except.ok (PImage.warpAffineRotate image (npMedian angles)) ∧
        warpCoordAngle (PImage.warpAffineRotate image (npMedian angles))
          = some (-npMedian angles))) := by
  constructor
  · intro hnone
    have key0 : deskewImage env image = pure image := by
      simp only [deskewImage, hcanny, exceptBind_ok, hnone]
    exact key0
  · intro lines hsome
    have key : deskewImage env image
        = if ((lines.map (fun l => l.thetaDeg - 90)).filter
              (fun a => |a| < 45)).isEmpty
          then pure image
          else cvCall env "warpAffine" image
            (PImage.warpAffineRotate image
              (npMedian ((lines.map (fun l => l.thetaDeg - 90)).filter
                (fun a => |a| < 45)))) := by
      simp only [deskewImage, hcanny, exceptBind_ok, hsome]
    refine ⟨?_, ?_, ?_⟩
    · intro l hl hbig
      simp only [List.mem_filter, decide_eq_true_eq, not_and]
      intro _
      exact fun habs => hbig habs
    · intro hempty
      rw [key, hempty]
      rfl
    · intro angles hangles hne hwarp
      refine ⟨?_, rfl⟩
      have hne' : angles.isEmpty = false := by
        cases angles with
        | nil => exact absurd rfl hne
        | cons a t => rfl
      rw [key, hangles, hne']
      simp [cvCall, hwarp]

/-- Witness for C4 with two detected lines at 100° and 170° (angles 10°
and 80°): 80° is discarded, the median of the accepted list `[10]` is 10,
and the warp rotates the image frame by −10°. -/
theorem deskew_angle_policy_witness :
    cvCall cvEnvLines "Canny" (PImage.src 0)
        (PImage.canny (PImage.src 0) 50 150 3)
      = Except.ok (PImage.canny (PImage.src 0) 50 150 3) ∧
    cvEnvLines.houghLines (PImage.canny (PImage.src 0) 50 150 3)
      = Except.ok
          (some [{ rho := 1, thetaDeg := 100 }, { rho := 1, thetaDeg := 170 }]) ∧
    (([{ rho := 1, thetaDeg := 100 },
       { rho := 1, thetaDeg := 170 }] : List HoughLine).map
        (fun l' => l'.thetaDeg - 90)).filter (fun a => |a| < 45) = [10] ∧
    (deskewImage cvEnvLines (PImage.src 0)
      = Except.ok (PImage.warpAffineRotate (PImage.src 0) (npMedian [10])) ∧
    warpCoordAngle (PImage.warpAffineRotate (PImage.src 0) (npMedian [10]))
      = some (-npMedian [10])) :=
  ⟨rfl, rfl, by norm_num [List.filter],
    ((deskew_angle_policy cvEnvLines (PImage.src 0)
        (PImage.canny (PImage.src 0) 50 150 3) rfl).2
      [{ rho := 1, thetaDeg := 100 }, { rho := 1, thetaDeg := 170 }]
      rfl).2.2 [10] (by norm_num [List.filter]) (by decide) rfl⟩

/-! ### Preprocessing failure fallback (C7) -/

/-- Claim C7: `preprocess_image` never raises: when the body of its `try`
block succeeds its result is returned, and when any preprocessing step
fails the original input image is returned unmodified. -/
theorem preprocess_failure_returns_original (env : CvEnv) (image : PImage)
    (ptype : String) :
    (∀ r, preprocessImageBody env image ptype = Except.ok r →
      preprocessImage env image ptype = r) ∧
    (∀ e, preprocessImageBody env image ptype = Except.error e →
      preprocessImage env image ptype = image) := by
  constructor <;> intro x h <;> simp [preprocessImage, h]

/-- Witness for C7: an environment whose `cv2.medianBlur` raises makes the
default pipeline fail, and `preprocess_image` hands back the input image. -/
theorem preprocess_failure_returns_original_witness :
    preprocessImageBody cvEnvBlurFail (PImage.src 0) "default"
      = Except.error "cv2.error" ∧
    preprocessImage cvEnvBlurFail (PImage.src 0) "default" = PImage.src 0 :=
  ⟨rfl,
    (preprocess_failure_returns_original cvEnvBlurFail (PImage.src 0)
      "default").2 "cv2.error" rfl⟩

/-! ### extract_text error policy (C6) -/

/-- Claim C6: `extract_text` never raises past its boundary: a successful
body yields its dictionary, and any exception inside the body yields the
dictionary with empty text, confidence 0 and the error description
attached. -/
theorem extract_text_error_policy (env : CvEnv) (image : PImage)
    (config_type language preprocessing : String) (threshold : ℚ) :
    (∀ r, extractTextBody env image config_type language preprocessing
        threshold = Except.ok r →
      extractText env image config_type language preprocessing threshold = r) ∧
    (∀ e, extractTextBody env image config_type language preprocessing
        threshold = Except.error e →
      extractText env image config_type language preprocessing threshold
        = { text := "", confidence := 0, word_confidences := none,
            preprocessing_used := none, config_used := none,
            language_used := none, error := some e }) := by
  constructor <;> intro x h <;> simp [extractText, h]

/-- Witness for C6: a raising recognition pass produces the empty result
with the error attached. -/
theorem extract_text_error_policy_witness :
    extractTextBody cvEnvRecogFail (PImage.src 0) "default" "english"
        "default" 0
      = Except.error "tesseract crashed" ∧
    extractText cvEnvRecogFail (PImage.src 0) "default" "english" "default" 0
      = { text := "", confidence := 0, word_confidences := none,
          preprocessing_used := none, config_used := none,
          language_used := none, error := some "tesseract crashed" } :=
  ⟨rfl,
    (extract_text_error_policy cvEnvRecogFail (PImage.src 0) "default"
      "english" "default" 0).2 "tesseract crashed" rfl⟩

/-! ### Token filtering and mean confidence (C5) -/

theorem filterTokens_go (θ : ℚ) :
    ∀ (data : List OcrToken) (acc : List String × List Int),
      data.foldl
        (fun acc tk =>
          if (tk.conf : ℚ) > θ then
            let t := pyStrip tk.text
            if t ≠ "" then (acc.1 ++ [t], acc.2 ++ [tk.conf]) else acc
          else acc) acc
      = (acc.1 ++ (data.filter
            (fun tk => decide ((tk.conf : ℚ) > θ)
              && decide (pyStrip tk.text ≠ ""))).map (fun tk => pyStrip tk.text),
         acc.2 ++ (data.filter
            (fun tk => decide ((tk.conf : ℚ) > θ)
              && decide (pyStrip tk.text ≠ ""))).map (fun tk => tk.conf)) := by
  intro data
  induction data with
  | nil => intro acc; simp
  | cons tk rest ih =>
    intro acc
    by_cases hc : (tk.conf : ℚ) > θ
    · by_cases ht : pyStrip tk.text ≠ ""
      · simp only [List.foldl_cons, List.filter_cons]
        rw [ih]
        simp [hc, ht, List.append_assoc]
      · have ht' : pyStrip tk.text = "" := not_not.mp ht
        simp only [List.foldl_cons, List.filter_cons]
        rw [ih]
        simp [hc, ht']
    · simp only [List.foldl_cons, List.filter_cons]
      rw [ih]
      simp [hc]

theorem filterTokens_eq (θ : ℚ) (data : List OcrToken) :
    filterTokens θ data
      = ((data.filter (fun tk => decide ((tk.conf : ℚ) > θ)
            && decide (pyStrip tk.text ≠ ""))).map (fun tk => pyStrip tk.text),
         (data.filter (fun tk => decide ((tk.conf : ℚ) > θ)
            && decide (pyStrip tk.text ≠ ""))).map (fun tk => tk.conf)) := by
  unfold filterTokens
  rw [filterTokens_go θ data ([], [])]
  simp

/-- Claim C5: in a successful `extract_text` run, every recognized token
with confidence ≤ `confidence_threshold` is absent from the kept list; the
returned text joins the surviving (stripped) tokens with single spaces in
their original order; and the returned confidence is the arithmetic mean of
the kept confidences, or 0 when no token survives. -/
theorem token_filtering_and_mean (env : CvEnv) (image arr : PImage)
    (config_type language preprocessing : String) (θ : ℚ)
    (data : List OcrToken)
    (harr : pilToCv env image = Except.ok arr)
    (hdata : env.imageToData (preprocessImage env arr preprocessing)
        (dictGet ocrConfigs config_type (dictGet ocrConfigs "default" ""))
        (dictGet ocrLanguages language "eng") = Except.ok data) :
    (∀ tk ∈ data, (tk.conf : ℚ) ≤ θ →
      tk ∉ data.filter (fun tk => decide ((tk.conf : ℚ) > θ)
        && decide (pyStrip tk.text ≠ ""))) ∧
    (extractText env image config_type language preprocessing θ).text
      = String.intercalate " "
          ((data.filter (fun tk => decide ((tk.conf : ℚ) > θ)
            && decide (pyStrip tk.text ≠ ""))).map (fun tk => pyStrip tk.text)) ∧
    (extractText env image config_type language preprocessing θ).confidence
      = if (data.filter (fun tk => decide ((tk.conf : ℚ) > θ)
            && decide (pyStrip tk.text ≠ ""))) = [] then 0
        else intMean ((data.filter (fun tk => decide ((tk.conf : ℚ) > θ)
            && decide (pyStrip tk.text ≠ ""))).map (fun tk => tk.conf)) := by
  have hbody : extractTextBody env image config_type language preprocessing θ
      = Except.ok
          { text := String.intercalate " " (filterTokens θ data).1,
            confidence := if (filterTokens θ data).2.isEmpty then 0
              else intMean (filterTokens θ data).2,
            word_confidences := some (filterTokens θ data).2,
            preprocessing_used := some preprocessing,
            config_used := some config_type,
            language_used := some language,
            error := none } := by
    simp only [extractTextBody, harr, exceptBind_ok, hdata]
    rfl
  have hext : extractText env image config_type language preprocessing θ
      = { text := String.intercalate " " (filterTokens θ data).1,
          confidence := if (filterTokens θ data).2.isEmpty then 0
            else intMean (filterTokens θ data).2,
          word_confidences := some (filterTokens θ data).2,
          preprocessing_used := some preprocessing,
          config_used := some config_type,
          language_used := some language,
          error := none } := by
    simp only [extractText, hbody]
  refine ⟨?_, ?_, ?_⟩
  · intro tk _ hle
    simp only [List.mem_filter, Bool.and_eq_true, decide_eq_true_eq, not_and]
    intro _ hgt _
    exact absurd hgt (not_lt.mpr hle)
  · rw [hext]
    simp only [filterTokens_eq]
  · rw [hext]
    simp only [filterTokens_eq]
    rcases hl : data.filter (fun tk => decide ((tk.conf : ℚ) > θ)
        && decide (pyStrip tk.text ≠ "")) with _ | ⟨a, t⟩
    · simp
    · simp

/-- Witness for C5: three recognized tokens `(50, " hi ")`, `(0, "zz")`,
`(80, "  ")` at threshold 0 — only the first survives. -/
theorem token_filtering_and_mean_witness :
    pilToCv cvEnvTokens (PImage.src 0) = Except.ok (PImage.src 0) ∧
    cvEnvTokens.imageToData
        (preprocessImage cvEnvTokens (PImage.src 0) "default")
        (dictGet ocrConfigs "default" (dictGet ocrConfigs "default" ""))
        (dictGet ocrLanguages "english" "eng")
      = Except.ok [{ conf := 50, text := " hi " }, { conf := 0, text := "zz" },
                   { conf := 80, text := "  " }] ∧
    ((∀ tk ∈ [({ conf := 50, text := " hi " } : OcrToken),
        { conf := 0, text := "zz" }, { conf := 80, text := "  " }],
      (tk.conf : ℚ) ≤ 0 →
      tk ∉ ([({ conf := 50, text := " hi " } : OcrToken),
        { conf := 0, text := "zz" }, { conf := 80, text := "  " }]).filter
          (fun tk => decide ((tk.conf : ℚ) > 0)
            && decide (pyStrip tk.text ≠ ""))) ∧
    (extractText cvEnvTokens (PImage.src 0) "default" "english" "default" 0).text
      = String.intercalate " "
          ((([({ conf := 50, text := " hi " } : OcrToken),
            { conf := 0, text := "zz" }, { conf := 80, text := "  " }]).filter
              (fun tk => decide ((tk.conf : ℚ) > 0)
                && decide (pyStrip tk.text ≠ ""))).map (fun tk => pyStrip tk.text)) ∧
    (extractText cvEnvTokens (PImage.src 0) "default" "english" "default" 0).confidence
      = if (([({ conf := 50, text := " hi " } : OcrToken),
            { conf := 0, text := "zz" }, { conf := 80, text := "  " }]).filter
              (fun tk => decide ((tk.conf : ℚ) > 0)
                && decide (pyStrip tk.text ≠ ""))) = [] then 0
        else intMean ((([({ conf := 50, text := " hi " } : OcrToken),
            { conf := 0, text := "zz" }, { conf := 80, text := "  " }]).filter
              (fun tk => decide ((tk.conf : ℚ) > 0)
                && decide (pyStrip tk.text ≠ ""))).map (fun tk => tk.conf))) :=
  ⟨rfl, rfl,
    token_filtering_and_mean cvEnvTokens (PImage.src 0) (PImage.src 0)
      "default" "english" "default" 0
      [{ conf := 50, text := " hi " }, { conf := 0, text := "zz" },
       { conf := 80, text := "  " }] rfl rfl⟩
